import Mathlib

/-!
Shallow embedding of the purchase-ledger core of `packages/portfolio/stock.py`
(class `Stock`).  Monetary amounts and share counts, Python floats in the
source, are modelled as rationals; the external currency converter
(`CurrencyConverter.convert(amount, currency, new_currency)`) is an abstract
parameter; the market-data provider's close price on the purchase date is a
parameter as well.  Python exceptions are modelled with `Except`.
-/

set_option autoImplicit false

namespace AgentFinance

/-- Python exceptions raised by the modelled code paths:
`ValueError` (explicit raise in `buyStock`, and pandas' length-mismatch
error on column assignment in `stock_purchase_history`),
`ZeroDivisionError` (float division by zero), and the spec's
`InvalidStateError` for the discount check on zero shares. -/
inductive StockError where
  | valueError
  | zeroDivision
  | invalidState
  deriving DecidableEq, Repr

/-- A calendar date at day precision.  `buyStock` serializes its
`dateOfpurch` argument with `strftime("%Y-%m-%d")`, which reads only the
year, month and day of the `datetime`; `stock_purchase_history` parses the
stored string back with `strptime("%Y-%m-%d")`, yielding a midnight
`datetime` with the same triple.  Both ends are therefore faithfully
represented by this triple. -/
structure Date where
  year : Nat
  month : Nat
  day : Nat
  deriving DecidableEq, Repr

/-- The shared `CurrencyConverter` instance's
`convert(amount, currency, new_currency)`: an abstract total function. -/
def Converter : Type := ℚ → String → String → ℚ

/-- Python truthiness of an optional float argument: `None` and `0.0` are
falsy, every other float is truthy.  (`float("nan")` is truthy in Python
but has no counterpart in `ℚ`; no claim involves NaN.) -/
def pyTruthy : Option ℚ → Bool
  | none => false
  | some v => v ≠ 0

/-- The defaulting idiom
`purchaseCurrency if purchaseCurrency else self.displayCurrency`:
Python truthiness of an optional string, where `None` and `""` are falsy. -/
def pyStrDefault (o : Option String) (d : String) : String :=
  match o with
  | none => d
  | some s => if s = "" then d else s

/-- One row of `stockPurchaseHistory.json` as written by
`DataFrame.to_json`: the `DateofPurchase` cell is either a
`"%Y-%m-%d"` string (modelled at day precision) or JSON `null`
(pandas `NaN`/`None`, which is falsy), and the remaining four columns
`PurchasePrice`, `StocksPurchased`, `StockPrice`, `Currency`. -/
structure PersistedRow where
  dateOfPurchase : Option Date
  purchasePrice : ℚ
  stocksPurchased : ℚ
  stockPrice : ℚ
  currency : String
  deriving DecidableEq, Repr

/-- A row of the frame returned by the `stock_purchase_history` property
after date parsing and `set_index("DateofPurchase")`: the date is the
index, the other four fields are the columns. -/
structure LoadedRow where
  dateOfPurchase : Date
  purchasePrice : ℚ
  stocksPurchased : ℚ
  stockPrice : ℚ
  currency : String
  deriving DecidableEq, Repr

/-- A row of `rogueHoldings.json` (`roguePurchaseHistoryColumns`): the
purchase-history columns minus the date. -/
structure RogueRow where
  purchasePrice : ℚ
  stocksPurchased : ℚ
  stockPrice : ℚ
  currency : String
  deriving DecidableEq, Repr

/-- The record assembled by `buyStock` via
`__createDataFrameforPurchaseHistory(DateofPurchase, PurchasePrice,
StocksPurchased, StockPrice, Currency)`. -/
structure BuyRecord where
  dateOfPurchase : Date
  purchasePrice : ℚ
  stocksPurchased : ℚ
  stockPrice : ℚ
  currency : String
  deriving DecidableEq, Repr

/-- The pure part of `Stock.buyStock` (lines 405-440): currency
defaulting, the mutual-exclusivity check, derivation of the missing one of
`purchasePrice`/`stocksPurch`, and assembly of the record.
`fC` is `self.cleanInfo()["financialCurrency"]`, `dC` is
`self.displayCurrency`, and `sp` is the provider close price
`self.history(...)["Close"][dateOfpurch]` on the purchase date.
The two derivation branches are mutually exclusive once the
mutual-exclusivity check has passed: if `purchasePrice` is falsy then
`stocksPurch` is truthy, so at most one branch runs. -/
def buyStockRecord (conv : Converter) (dC fC : String) (date : Date)
    (sp : ℚ) (purchasePrice stocksPurch : Option ℚ)
    (purchaseCurrency : Option String) : Except StockError BuyRecord :=
  let pC := pyStrDefault purchaseCurrency dC
  if ¬ (pyTruthy purchasePrice ∨ pyTruthy stocksPurch) then
    .error .valueError
  else if ¬ pyTruthy purchasePrice then
    -- purchasePrice = stocksPurch * stockPrice, then financial → display
    let n := (stocksPurch.getD 0)
    let p0 := n * sp
    let p1 := if fC ≠ dC then conv p0 fC dC else p0
    .ok ⟨date, p1, n, sp, dC⟩
  else if ¬ pyTruthy stocksPurch then
    -- purchase → financial, divide by stockPrice, then price financial → display
    let p := (purchasePrice.getD 0)
    let cp := if pC ≠ fC then conv p pC fC else p
    if sp = 0 then .error .zeroDivision
    else
      let n := cp / sp
      let p1 := if fC ≠ dC then conv p fC dC else p
      .ok ⟨date, p1, n, sp, dC⟩
  else
    .ok ⟨date, purchasePrice.getD 0, stocksPurch.getD 0, sp, dC⟩

/-- `Stock.addRoguePurchase` (lines 362-378): unconditional conversion of
the purchase price to the financial currency, division by the share count
(Python raises `ZeroDivisionError` on zero), conversion of the resulting
per-share price to the display currency, conversion of the purchase price
to the display currency, and assembly via
`__createDataFrameForRoguePurchases` with `purchaseCurrency=self.displayCurrency`. -/
def addRoguePurchaseRecord (conv : Converter) (dC fC : String)
    (purchasePrice stocksPurch : ℚ) (purchaseCurrency : Option String) :
    Except StockError RogueRow :=
  let pC := pyStrDefault purchaseCurrency dC
  let cp := conv purchasePrice pC fC
  if stocksPurch = 0 then .error .zeroDivision
  else
    let sp0 := cp / stocksPurch
    let sp := conv sp0 fC dC
    let pr := conv purchasePrice pC dC
    .ok ⟨pr, stocksPurch, sp, dC⟩

/-- The `stock_purchase_history` property (lines 96-125).  The file state
is `none` when `stockPurchaseHistory.json` does not exist (an empty frame
is returned) and `some rows` when it does.  Files written by this program
parse under `pd.read_json`, so the `except ValueError` branch around
`read_json` is not taken; after reading, the comprehension
`[strptime(date, "%Y-%m-%d") for date in df["DateofPurchase"] if date]`
drops the falsy (null) date cells, and assigning the resulting list back
to the column raises pandas' `ValueError` whenever its length differs from
the row count; otherwise `set_index("DateofPurchase")` yields the
date-indexed frame. -/
def stock_purchase_history (file : Option (List PersistedRow)) :
    Except StockError (List LoadedRow) :=
  match file with
  | none => .ok []
  | some rows =>
      let dates := rows.filterMap (·.dateOfPurchase)
      if dates.length = rows.length then
        .ok (rows.filterMap fun r =>
          (r.dateOfPurchase).map fun d =>
            ⟨d, r.purchasePrice, r.stocksPurchased, r.stockPrice, r.currency⟩)
      else .error .valueError

/-- The `rogueHoldings` property (lines 127-150): an empty frame when
`rogueHoldings.json` does not exist, its rows otherwise (no date column,
no index manipulation). -/
def rogueHoldings (file : Option (List RogueRow)) : List RogueRow :=
  match file with
  | none => []
  | some rows => rows

/-- `Stock._updatePurchaseHistory` (lines 487-505): load the current
history through the `stock_purchase_history` property, append the single
new row with `ignore_index=True`, and overwrite the file.  When the file
already exists the loaded frame is indexed by `DateofPurchase`
(`set_index` removed it from the columns), so `append(..., ignore_index=True)`
resets the index and the existing rows' dates are lost: they reappear as
`NaN` in the re-created `DateofPurchase` column and are serialized as
JSON `null`.  When the file does not exist the empty frame still has the
`DateofPurchase` column and nothing is lost. -/
def updatePurchaseHistory (file : Option (List PersistedRow))
    (new : BuyRecord) : Except StockError (List PersistedRow) :=
  let newRow : PersistedRow :=
    ⟨some new.dateOfPurchase, new.purchasePrice, new.stocksPurchased,
      new.stockPrice, new.currency⟩
  match file with
  | none => .ok [newRow]
  | some rows => do
      let loaded ← stock_purchase_history (some rows)
      .ok (loaded.map (fun r =>
        ⟨none, r.purchasePrice, r.stocksPurchased, r.stockPrice, r.currency⟩)
        ++ [newRow])

/-- `Stock.buyStock` including the `save` branch (lines 442-450): on
success of the pure part, persist through `_updatePurchaseHistory` when
`save` is true; the returned value is the new file state.  An error from
the pure part propagates before any write. -/
def buyStock (conv : Converter) (dC fC : String) (date : Date) (sp : ℚ)
    (purchasePrice stocksPurch : Option ℚ) (purchaseCurrency : Option String)
    (save : Bool) (file : Option (List PersistedRow)) :
    Except StockError (Option (List PersistedRow)) :=
  match buyStockRecord conv dC fC date sp purchasePrice stocksPurch purchaseCurrency with
  | .error e => .error e
  | .ok r =>
      if save then (updatePurchaseHistory file r).map some
      else .ok file

/-- One iteration of the summation loops in `purchaseValue`
(lines 166-177): convert when the record's currency differs from the
display currency, add the raw value otherwise. -/
def addRowValue (conv : Converter) (dC : String) (acc : ℚ)
    (vc : ℚ × String) : ℚ :=
  if vc.2 ≠ dC then acc + conv vc.1 vc.2 dC else acc + vc.1

/-- A `for value, currency in ...` summation loop of `purchaseValue`. -/
def sumPurchases (conv : Converter) (dC : String) (rows : List (ℚ × String))
    (init : ℚ) : ℚ :=
  rows.foldl (addRowValue conv dC) init

/-- The `purchaseValue` property (lines 152-179): load both collections,
then sum the currency-normalized purchase prices, rogue rows first, dated
rows second, starting from `0`. -/
def purchaseValue (hist : Option (List PersistedRow))
    (rogue : Option (List RogueRow)) (conv : Converter) (dC : String) :
    Except StockError ℚ := do
  let df ← stock_purchase_history hist
  let rogue_df := rogueHoldings rogue
  .ok (sumPurchases conv dC (df.map fun r => (r.purchasePrice, r.currency))
    (sumPurchases conv dC (rogue_df.map fun r => (r.purchasePrice, r.currency)) 0))

/-- The `shares` property (lines 197-218): load both collections and sum
the `StocksPurchased` column, rogue rows first, starting from `0`. -/
def shares (hist : Option (List PersistedRow))
    (rogue : Option (List RogueRow)) : Except StockError ℚ := do
  let df ← stock_purchase_history hist
  let rogue_df := rogueHoldings rogue
  .ok ((df.map (·.stocksPurchased)).foldl (· + ·)
    ((rogue_df.map (·.stocksPurchased)).foldl (· + ·) 0))

/-- The summation loop of `purchaseValue`, instrumented with the list of
`convert` calls it issues: each converting iteration records the
`(amount, source-currency)` pair it passes to the converter (the target is
always the display currency). -/
def sumPurchasesInstr (conv : Converter) (dC : String)
    (rows : List (ℚ × String)) (init : ℚ × List (ℚ × String)) :
    ℚ × List (ℚ × String) :=
  rows.foldl
    (fun acc vc =>
      if vc.2 ≠ dC then (acc.1 + conv vc.1 vc.2 dC, acc.2 ++ [vc])
      else (acc.1 + vc.1, acc.2))
    init

/-- A price series as consumed by `__JSE_YAHOO_CORRECTION`: the four
price columns of the provider's frame. -/
structure PriceSeries where
  openP : List ℚ
  high : List ℚ
  low : List ℚ
  close : List ℚ
  deriving DecidableEq, Repr

/-- `Stock.__JSE_YAHOO_CORRECTION` (lines 276-292): each of the four
price columns is rebuilt as `[x*10**-2 for x in column]`. -/
def JSE_YAHOO_CORRECTION (s : PriceSeries) : PriceSeries :=
  ⟨s.openP.map (· * (1 / 100)), s.high.map (· * (1 / 100)),
    s.low.map (· * (1 / 100)), s.close.map (· * (1 / 100))⟩

/-- `Stock.history` (lines 294-299): apply the JSE correction to the
provider's series exactly when `isJSE` is set, pass it through otherwise.
`providerSeries` stands for `super().history(*args, **kwargs)`. -/
def history (isJSE : Bool) (providerSeries : PriceSeries) : PriceSeries :=
  if isJSE then JSE_YAHOO_CORRECTION providerSeries else providerSeries

/-- Modelled from the spec: `Stock.isCurrentPriceAvgDiscount`
(lines 342-348) is an empty stub in the source — only a docstring and a
comment, no body.  The spec defines it as comparing `currentPrice` against
`(totalInvested / totalShares) * (1 - discountFraction)` with
division-by-zero semantics reported as `InvalidStateError` when the
shares owned are zero; `totalInvested` and `totalShares` are the
`purchaseValue` and `shares` metrics of the ledger. -/
def isCurrentPriceAvgDiscount (hist : Option (List PersistedRow))
    (rogue : Option (List RogueRow)) (conv : Converter) (dC : String)
    (currentPrice discount : ℚ) : Except StockError Bool := do
  let invested ← purchaseValue hist rogue conv dC
  let owned ← shares hist rogue
  if owned = 0 then .error .invalidState
  else .ok (currentPrice < invested / owned * (1 - discount))

/-- A concrete converter that returns the amount unchanged (all rates 1);
used to instantiate theorems at concrete inputs. -/
def convId : Converter := fun a _ _ => a

/-- A concrete converter whose only non-unit rate is EUR → USD at 2. -/
def convEURUSD2 : Converter := fun a f t =>
  if f = "EUR" ∧ t = "USD" then 2 * a else a

/-- A concrete converter whose only non-unit rate is USD → ZAR at 15. -/
def convUSDZAR15 : Converter := fun a f t =>
  if f = "USD" ∧ t = "ZAR" then 15 * a else a

/-- A concrete purchase date used to instantiate theorems. -/
def d0 : Date := ⟨2021, 1, 1⟩

/-- A concrete purchase date used to instantiate theorems, one day after `d0`. -/
def d1 : Date := ⟨2021, 1, 2⟩

/-- C4: on a ledger with zero dated records and zero rogue records (no
backing files exist), `purchaseValue` returns `0` and `shares` returns
`0`; neither raises an error. -/
theorem purchaseValue_shares_empty_ledger (conv : Converter) (dC : String) :
    purchaseValue none none conv dC = .ok 0 ∧ shares none none = .ok 0 := by
  exact ⟨rfl, rfl⟩

/-- C5: `buyStock` with both `purchasePrice` and `stocksPurch` absent
raises `ValueError` before any record is assembled or persisted, for
every converter, currency pair, date, close price, purchase currency,
`save` flag and ledger state. -/
theorem buyStock_both_absent_valueError (conv : Converter) (dC fC : String)
    (date : Date) (sp : ℚ) (pCurr : Option String) (save : Bool)
    (file : Option (List PersistedRow)) :
    buyStockRecord conv dC fC date sp none none pCurr = .error .valueError ∧
    buyStock conv dC fC date sp none none pCurr save file = .error .valueError := by
  exact ⟨rfl, rfl⟩

/-- C7: for a JSE-flagged instrument, `history` returns the provider
series with the `Open`, `High`, `Low` and `Close` columns each divided by
100, the correction being applied exactly once (it equals a single
application of `__JSE_YAHOO_CORRECTION`, and is skipped entirely when the
flag is off); in particular a provider series with `Close = [100, 200]`
yields `Close = [1, 2]`. -/
theorem history_JSE_divides_by_100 :
    (∀ s : PriceSeries,
      history true s = JSE_YAHOO_CORRECTION s ∧
      history true s =
        ⟨s.openP.map (· / 100), s.high.map (· / 100),
          s.low.map (· / 100), s.close.map (· / 100)⟩ ∧
      history false s = s) ∧
    (history true ⟨[], [], [], [100, 200]⟩).close = [1, 2] := by
  constructor
  · intro s
    refine ⟨rfl, ?_, rfl⟩
    simp only [history, JSE_YAHOO_CORRECTION, if_true]
    congr 1 <;> · apply List.map_congr_left; intro x _; exact mul_one_div x 100
  · simp only [history, JSE_YAHOO_CORRECTION, if_true, List.map_cons, List.map_nil]
    norm_num

/-- C10: argument presence in `buyStock` is tested by Python truthiness,
so a supplied value of `0` behaves exactly like an absent argument: with
one argument `0` and the other absent the call raises the missing-argument
`ValueError`, and with both supplied but one equal to `0` the zero
argument is re-derived as though it had not been given. -/
theorem buyStock_zero_is_absent (conv : Converter) (dC fC : String)
    (date : Date) (sp : ℚ) (pCurr : Option String) :
    buyStockRecord conv dC fC date sp (some 0) none pCurr = .error .valueError ∧
    buyStockRecord conv dC fC date sp none (some 0) pCurr = .error .valueError ∧
    (∀ p : ℚ, buyStockRecord conv dC fC date sp (some p) (some 0) pCurr =
      buyStockRecord conv dC fC date sp (some p) none pCurr) ∧
    (∀ n : ℚ, buyStockRecord conv dC fC date sp (some 0) (some n) pCurr =
      buyStockRecord conv dC fC date sp none (some n) pCurr) := by
  refine ⟨by simp [buyStockRecord, pyTruthy], by simp [buyStockRecord, pyTruthy], ?_, ?_⟩
  · intro p
    simp [buyStockRecord, pyTruthy]
  · intro n
    simp [buyStockRecord, pyTruthy]

/-- C6: on any ledger whose metrics are `totalInvested = 1000` and
`totalShares = 10`, the spec-modelled `isCurrentPriceAvgDiscount` with
discount fraction `1/10` returns `true` at current price `85` and `false`
at `95`; on any ledger whose total shares owned is zero it fails with
`InvalidStateError`. -/
theorem isCurrentPriceAvgDiscount_spec (hist : Option (List PersistedRow))
    (rogue : Option (List RogueRow)) (conv : Converter) (dC : String) :
    (purchaseValue hist rogue conv dC = .ok 1000 → shares hist rogue = .ok 10 →
      isCurrentPriceAvgDiscount hist rogue conv dC 85 (1/10) = .ok true ∧
      isCurrentPriceAvgDiscount hist rogue conv dC 95 (1/10) = .ok false) ∧
    (shares hist rogue = .ok 0 → ∀ cp d : ℚ,
      isCurrentPriceAvgDiscount hist rogue conv dC cp d = .error .invalidState) := by
  constructor
  · intro h1 h2
    constructor <;>
      · simp only [isCurrentPriceAvgDiscount, h1, h2, Bind.bind, Except.bind]
        norm_num
  · intro h0 cp d
    cases hload : stock_purchase_history hist with
    | error e => simp [shares, hload, Bind.bind, Except.bind] at h0
    | ok df =>
        simp only [shares, hload, Bind.bind, Except.bind, Except.ok.injEq] at h0
        simp only [isCurrentPriceAvgDiscount, purchaseValue, shares, hload,
          Bind.bind, Except.bind, h0]
        norm_num

/-- C6 witness: the theorem instantiated at a concrete one-record ledger
with purchase price 1000 and 10 shares in the display currency, and at
the empty ledger for the zero-shares branch. -/
theorem isCurrentPriceAvgDiscount_spec_witness :
    isCurrentPriceAvgDiscount (some [⟨some d0, 1000, 10, 100, "USD"⟩]) none
      convId "USD" 85 (1/10) = .ok true ∧
    isCurrentPriceAvgDiscount (some [⟨some d0, 1000, 10, 100, "USD"⟩]) none
      convId "USD" 95 (1/10) = .ok false ∧
    isCurrentPriceAvgDiscount none none convId "USD" 7 (1/2) =
      .error .invalidState := by
  have h := isCurrentPriceAvgDiscount_spec
    (some [⟨some d0, 1000, 10, 100, "USD"⟩]) none convId "USD"
  have h' := isCurrentPriceAvgDiscount_spec none none convId "USD"
  have hv : purchaseValue (some [⟨some d0, 1000, 10, 100, "USD"⟩]) none convId "USD" =
      .ok 1000 := by
    simp [purchaseValue, stock_purchase_history, rogueHoldings, sumPurchases,
      addRowValue, Bind.bind, Except.bind]
  have hs : shares (some [⟨some d0, 1000, 10, 100, "USD"⟩]) none = .ok 10 := by
    simp [shares, stock_purchase_history, rogueHoldings, Bind.bind, Except.bind]
  have hs0 : shares none none = .ok 0 := by
    simp [shares, stock_purchase_history, rogueHoldings, Bind.bind, Except.bind]
  exact ⟨(h.1 hv hs).1, (h.1 hv hs).2, h'.2 hs0 7 (1/2)⟩

/-- C8: `purchaseValue` invokes the currency converter only for records
whose stored currency differs from the display currency: the instrumented
summation loop's call list is exactly the differing-currency records (in
loop order), its numeric result agrees with the uninstrumented loop, a
record whose currency equals the display currency contributes its raw
stored value, and `purchaseValue` is the composition of that loop over
the two loaded collections. -/
theorem purchaseValue_converter_short_circuit (conv : Converter) (dC : String) :
    (∀ (rows : List (ℚ × String)) (acc : ℚ × List (ℚ × String)),
      (sumPurchasesInstr conv dC rows acc).2 =
        acc.2 ++ rows.filter (fun vc => vc.2 ≠ dC) ∧
      (sumPurchasesInstr conv dC rows acc).1 = sumPurchases conv dC rows acc.1) ∧
    (∀ acc p : ℚ, addRowValue conv dC acc (p, dC) = acc + p) ∧
    (∀ (hist : Option (List PersistedRow)) (rogue : Option (List RogueRow)),
      purchaseValue hist rogue conv dC =
        Except.map
          (fun df => sumPurchases conv dC
            (df.map fun r => (r.purchasePrice, r.currency))
            (sumPurchases conv dC
              ((rogueHoldings rogue).map fun r => (r.purchasePrice, r.currency)) 0))
          (stock_purchase_history hist)) := by
  refine ⟨?_, ?_, ?_⟩
  · intro rows
    induction rows with
    | nil => intro acc; simp [sumPurchasesInstr, sumPurchases]
    | cons vc rest ih =>
        intro acc
        have hpos := ih (acc.1 + vc.1, acc.2)
        have hneg := ih (acc.1 + conv vc.1 vc.2 dC, acc.2 ++ [vc])
        by_cases h : vc.2 = dC
        · simpa [sumPurchasesInstr, sumPurchases, addRowValue, h] using hpos
        · simpa [sumPurchasesInstr, sumPurchases, addRowValue, h] using hneg
  · intro acc p
    simp [addRowValue]
  · intro hist rogue
    cases hload : stock_purchase_history hist with
    | error e => simp [purchaseValue, hload, Bind.bind, Except.bind, Except.map]
    | ok df => simp [purchaseValue, hload, Bind.bind, Except.bind, Except.map]

/-- C9: every record assembled by `buyStock` or `addRoguePurchase`
carries the display currency in its `Currency` field, never the original
purchase currency. -/
theorem stored_currency_is_display_currency (conv : Converter) (dC fC : String)
    (date : Date) (sp : ℚ) (price shs : Option ℚ) (pCurr : Option String) :
    (∀ r : BuyRecord,
      buyStockRecord conv dC fC date sp price shs pCurr = .ok r → r.currency = dC) ∧
    (∀ (p n : ℚ) (r : RogueRow),
      addRoguePurchaseRecord conv dC fC p n pCurr = .ok r → r.currency = dC) := by
  constructor
  · intro r h
    unfold buyStockRecord at h
    repeat' split at h
    all_goals (try cases h)
    all_goals rfl
  · intro p n r h
    unfold addRoguePurchaseRecord at h
    split at h
    · cases h
    · cases h; rfl

/-- C9 witness: the theorem applied to concrete `buyStock` and
`addRoguePurchase` records in display currency `"USD"`. -/
theorem stored_currency_is_display_currency_witness :
    (⟨d0, 100, 2, 50, "USD"⟩ : BuyRecord).currency = "USD" ∧
    (⟨100, 4, 25, "USD"⟩ : RogueRow).currency = "USD" := by
  have h := stored_currency_is_display_currency convId "USD" "USD" d0 50
    (some 100) none none
  refine ⟨h.1 ⟨d0, 100, 2, 50, "USD"⟩ ?_, h.2 100 4 ⟨100, 4, 25, "USD"⟩ ?_⟩
  · simp [buyStockRecord, pyTruthy, pyStrDefault, convId]
    norm_num
  · simp [addRoguePurchaseRecord, pyStrDefault, convId]
    norm_num

/-- C1 counterexample: with purchase currency EUR, financial and display
currency USD, supplied purchase price 100 and close price 50 under a
converter whose EUR → USD rate is 2, `buyStock` stores purchase price
100 — the supplied price unconverted, because the storage conversion is
gated on (and sourced from) the financial currency — whereas the claim
demands the purchase-to-display conversion 200. -/
theorem buyStock_storedPrice_counterexample :
    buyStockRecord convEURUSD2 "USD" "USD" d0 50 (some 100) none (some "EUR") =
      .ok ⟨d0, 100, 4, 50, "USD"⟩ ∧
    convEURUSD2 100 "EUR" "USD" = 200 ∧
    (⟨d0, 100, 4, 50, "USD"⟩ : BuyRecord).purchasePrice ≠
      convEURUSD2 100 "EUR" "USD" := by
  refine ⟨?_, ?_, ?_⟩
  · simp [buyStockRecord, pyTruthy, pyStrDefault, convEURUSD2]
    norm_num
  · simp [convEURUSD2]
    norm_num
  · simp [convEURUSD2]

/-- C1 amended: when `sharesPurchased` is absent and `purchasePrice` is
supplied (non-zero), the derived share count is `purchasePrice` converted
from the purchase currency to the financial currency (conversion skipped
when they are equal) divided by the close price on the date; the stored
purchase price is the supplied price converted from the *financial*
currency to the display currency (conversion skipped when financial and
display currency are equal), the converter being invoked with the
financial currency as source even though the supplied amount is
denominated in the purchase currency. -/
theorem buyStock_price_given_amended (conv : Converter) (dC fC : String)
    (date : Date) (sp p : ℚ) (pCurr : Option String)
    (hp : p ≠ 0) (hsp : sp ≠ 0) :
    buyStockRecord conv dC fC date sp (some p) none pCurr =
      .ok ⟨date,
        if fC ≠ dC then conv p fC dC else p,
        (if pyStrDefault pCurr dC ≠ fC then conv p (pyStrDefault pCurr dC) fC
          else p) / sp,
        sp, dC⟩ := by
  simp [buyStockRecord, pyTruthy, hp, hsp]

/-- C1 amended witness: the amended theorem at converter `convEURUSD2`,
purchase currency EUR, financial and display currency USD, price 100,
close price 50. -/
theorem buyStock_price_given_amended_witness :
    buyStockRecord convEURUSD2 "USD" "USD" d0 50 (some 100) none (some "EUR") =
      .ok ⟨d0, 100, 4, 50, "USD"⟩ := by
  have h := buyStock_price_given_amended convEURUSD2 "USD" "USD" d0 50 100
    (some "EUR") (by norm_num) (by norm_num)
  rw [h]
  simp [pyStrDefault, convEURUSD2]
  norm_num

/-- C2 counterexample: with financial currency USD, display currency ZAR
(USD → ZAR rate 15), supplied purchase price 1000 and close price 100,
`buyStock` stores purchase price 15000, 10 shares and `StockPrice` 100 —
the provider's close price in financial-currency units — so the stored
`pricePerShare` differs from `purchasePrice / sharesPurchased = 1500`
and is not expressed in the display currency. -/
theorem pricePerShare_invariant_counterexample :
    buyStockRecord convUSDZAR15 "ZAR" "USD" d0 100 (some 1000) none none =
      .ok ⟨d0, 15000, 10, 100, "ZAR"⟩ ∧
    (⟨d0, 15000, 10, 100, "ZAR"⟩ : BuyRecord).stockPrice ≠
      (⟨d0, 15000, 10, 100, "ZAR"⟩ : BuyRecord).purchasePrice /
        (⟨d0, 15000, 10, 100, "ZAR"⟩ : BuyRecord).stocksPurchased := by
  constructor
  · simp [buyStockRecord, pyTruthy, pyStrDefault, convUSDZAR15]
    norm_num
  · simp only []
    norm_num

/-- C2 amended: the recording invariant
`pricePerShare = purchasePrice / sharesPurchased` holds for `buyStock`
records when exactly one of price/shares is supplied and the purchase,
financial and display currencies coincide; in general `buyStock` stores
the provider's close price unconverted (financial-currency units).
`addRoguePurchase` stores
`conv(conv(purchasePrice, purchase→financial) / shares, financial→display)`,
whose final conversion target is the display currency, and labels the
record with the display currency. -/
theorem pricePerShare_invariant_amended (conv : Converter) :
    (∀ (c : String) (date : Date) (sp p : ℚ), p ≠ 0 → sp ≠ 0 →
      ∀ r : BuyRecord, buyStockRecord conv c c date sp (some p) none none = .ok r →
        r.stockPrice = r.purchasePrice / r.stocksPurchased) ∧
    (∀ (c : String) (date : Date) (sp n : ℚ), n ≠ 0 →
      ∀ r : BuyRecord, buyStockRecord conv c c date sp none (some n) none = .ok r →
        r.stockPrice = r.purchasePrice / r.stocksPurchased) ∧
    (∀ (dC fC : String) (p n : ℚ) (pCurr : Option String), n ≠ 0 →
      addRoguePurchaseRecord conv dC fC p n pCurr =
        .ok ⟨conv p (pyStrDefault pCurr dC) dC, n,
          conv (conv p (pyStrDefault pCurr dC) fC / n) fC dC, dC⟩) := by
  refine ⟨?_, ?_, ?_⟩
  · intro c date sp p hp hsp r h
    simp [buyStockRecord, pyTruthy, pyStrDefault, hp, hsp] at h
    subst h
    field_simp
  · intro c date sp n hn r h
    simp [buyStockRecord, pyTruthy, pyStrDefault, hn] at h
    subst h
    rw [mul_comm, mul_div_assoc, div_self hn, mul_one]
  · intro dC fC p n pCurr hn
    simp [addRoguePurchaseRecord, hn]

/-- C2 amended witness: the amended theorem at the identity converter —
a price-given purchase (100 at close 50, giving 2 shares), a
shares-given purchase (4 shares at close 25, giving price 100), and a
rogue purchase (price 100, 4 shares). -/
theorem pricePerShare_invariant_amended_witness :
    ((⟨d0, 100, 2, 50, "USD"⟩ : BuyRecord).stockPrice =
      (⟨d0, 100, 2, 50, "USD"⟩ : BuyRecord).purchasePrice /
        (⟨d0, 100, 2, 50, "USD"⟩ : BuyRecord).stocksPurchased) ∧
    ((⟨d0, 100, 4, 25, "USD"⟩ : BuyRecord).stockPrice =
      (⟨d0, 100, 4, 25, "USD"⟩ : BuyRecord).purchasePrice /
        (⟨d0, 100, 4, 25, "USD"⟩ : BuyRecord).stocksPurchased) ∧
    addRoguePurchaseRecord convId "USD" "USD" 100 4 none =
      .ok ⟨convId 100 (pyStrDefault none "USD") "USD", 4,
        convId (convId 100 (pyStrDefault none "USD") "USD" / 4) "USD" "USD",
        "USD"⟩ := by
  have h := pricePerShare_invariant_amended convId
  refine ⟨h.1 "USD" d0 50 100 (by norm_num) (by norm_num) _ ?_,
    h.2.1 "USD" d0 25 4 (by norm_num) _ ?_,
    h.2.2 "USD" "USD" 100 4 none (by norm_num)⟩
  · simp [buyStockRecord, pyTruthy, pyStrDefault, convId]
    norm_num
  · simp [buyStockRecord, pyTruthy, pyStrDefault, convId]
    norm_num

/-- C3 (code bug): persisting purchases through `_updatePurchaseHistory`
breaks the load round-trip at the second append.  Appending one record to
a fresh ledger and loading it back succeeds; the second append re-loads
the date-indexed frame and `append(..., ignore_index=True)` drops the
first record's date (it lived in the index), persisting `null` in its
place, so the subsequent load fails with pandas' `ValueError` (the parsed
date list is shorter than the frame) instead of returning the two records
with their dates. -/
theorem purchase_history_round_trip_breaks :
    updatePurchaseHistory none ⟨d0, 1000, 10, 100, "USD"⟩ =
      .ok [⟨some d0, 1000, 10, 100, "USD"⟩] ∧
    stock_purchase_history (some [⟨some d0, 1000, 10, 100, "USD"⟩]) =
      .ok [⟨d0, 1000, 10, 100, "USD"⟩] ∧
    updatePurchaseHistory (some [⟨some d0, 1000, 10, 100, "USD"⟩])
        ⟨d1, 500, 5, 100, "USD"⟩ =
      .ok [⟨none, 1000, 10, 100, "USD"⟩, ⟨some d1, 500, 5, 100, "USD"⟩] ∧
    stock_purchase_history
        (some [⟨none, 1000, 10, 100, "USD"⟩, ⟨some d1, 500, 5, 100, "USD"⟩]) =
      .error .valueError := by
  exact ⟨rfl, rfl, rfl, rfl⟩

end AgentFinance
